import Mathlib

/-!
Shallow embedding of `mock_yoobic_server.py` (Flask mock of the YOOBIC API).

The server's mutable module-level dictionary `mock_data` becomes an explicit
`ServerState` threaded through every handler.  Wall-clock time
(`datetime.now()` / `time.time()`) and the UUID generator are nondeterministic
inputs of the real program, so each handler that consumes them takes them as
explicit parameters (`now : Nat`, seconds; `newId : String`).  JSON request
bodies become structures whose fields are `Option`s: `none` models an absent
key, mirroring Python's `data.get(...)` / `field not in data`.
-/

namespace MockYoobic

/-- One entry of `mock_data["users"]` (a Python dict keyed by username). -/
structure User where
  username : String
  password : String
  org_id : String
  token : Option String
  token_expires : Option Nat
deriving Repr, DecidableEq

/-- One entry of `mock_data["stores"]`. -/
structure Store where
  id : String
  name : String
  location : String
deriving Repr, DecidableEq

/-- Body of `POST /missions/<id>/validate`; the code only reads the key
`compliant` (with Python default `True` when absent) and stores the whole
body as `validation_data`. -/
structure ValidateBody where
  compliant : Option Bool
deriving Repr, DecidableEq

/-- A mission dict as built by `create_mission`.  `validated_at` /
`validation_data` are keys added later by `validate_mission`, hence `Option`
with `none` meaning "key not present".  The Python key `type` is spelled
`ctype` (Lean keyword); `created_at` / `validated_at` keep the timestamp as
a number rather than its ISO rendering. -/
structure Mission where
  mission_id : String
  title : String
  ctype : String
  store_id : String
  status : String
  created_at : Nat
  due_date : Option String
  custom_fields : List (String × String)
  priority : String
  created_by : String
  validated_at : Option Nat
  validation_data : Option ValidateBody
deriving Repr, DecidableEq

/-- The whole of `mock_data` (the `mission_templates` entry is never read by
any handler and is omitted). -/
structure ServerState where
  users : List User
  missions : List Mission
  stores : List Store
deriving Repr, DecidableEq

/-- The initial `mock_data` literal at module load. -/
def initialState : ServerState :=
  { users := [{ username := "test_user", password := "test_password",
                org_id := "test_org_123", token := none, token_expires := none }],
    missions := [],
    stores := [{ id := "store_001", name := "Test Store 1", location := "New York" },
               { id := "store_002", name := "Test Store 2", location := "Boston" },
               { id := "store_003", name := "Test Store 3", location := "Chicago" }] }

/-- Python truthiness of an optional string: `None` and `""` are falsy. -/
def pyFalsy : Option String → Bool
  | none => true
  | some s => s == ""

/-- `generate_jwt_token`: the f-string `mock_jwt_token_{username}_{int(time.time())}`. -/
def generate_jwt_token (username : String) (now : Nat) : String :=
  "mock_jwt_token_" ++ username ++ "_" ++ toString now

/-- The expiry part of `is_token_valid`'s condition:
`user_data.get("token_expires") and datetime.now() < user_data["token_expires"]`
(a stored `None` expiry is falsy, so it fails the check). -/
def expiryOk (o : Option Nat) (now : Nat) : Bool :=
  match o with
  | some e => decide (now < e)
  | none => false

/-- `is_token_valid`: empty/`None` token is invalid; otherwise valid iff some
user currently stores exactly this token with a (truthy) expiry that is still
in the future (`datetime.now() < token_expires`). -/
def is_token_valid (st : ServerState) (token : String) (now : Nat) : Bool :=
  if token == "" then false
  else st.users.any fun u =>
    u.token == some token && expiryOk u.token_expires now

/-- Python `str.split(sep)` with a one-character separator, on char lists
(empty segments are kept, as Python does with an explicit separator). -/
def splitOnChar (sep : Char) : List Char → List (List Char)
  | [] => [[]]
  | c :: cs =>
    if c = sep then [] :: splitOnChar sep cs
    else
      match splitOnChar sep cs with
      | [] => [[c]]
      | t :: ts => (c :: t) :: ts

/-- `auth_header.split(' ')[1]` (any header passing the `Bearer ` prefix check
contains a space, so index 1 exists; `getD` keeps the function total). -/
def extractToken (h : String) : String :=
  ((splitOnChar ' ' h.toList).getD 1 []).asString

/-- `auth_header.startswith('Bearer ')`. -/
def startsWithBearer (h : String) : Bool :=
  "Bearer ".toList.isPrefixOf h.toList

/-- The `require_auth` decorator, as the gate that runs before a wrapped
handler: `some msg` is the 401 body `{"error": msg}`, `none` means the wrapped
handler is invoked. -/
def require_auth (st : ServerState) (authHeader : Option String) (now : Nat) :
    Option String :=
  match authHeader with
  | none => some "Authentication required"
  | some h =>
    if ¬ startsWithBearer h then some "Authentication required"
    else if ¬ is_token_valid st (extractToken h) now then some "Invalid or expired token"
    else none

/-- Mutate the first list entry satisfying `p` (Python mutates the object
found by a first-match search; dict lookup is likewise first/unique match). -/
def updateFirst (p : α → Bool) (f : α → α) : List α → List α
  | [] => []
  | x :: xs => if p x then f x :: xs else x :: updateFirst p f xs

/-- Mutate the dict entry `mock_data["users"][uname]` (the first — in a real
dict the only — entry with this username). -/
def updateUser (users : List User) (uname : String) (f : User → User) : List User :=
  updateFirst (fun u => u.username == uname) f users

/-- Response of `POST /public/api/auth/login`.  `userInfo` carries the
`{"username", "org_id"}` object of the 200 body. -/
structure LoginResponse where
  status : Nat
  token : Option String := none
  expires : Option Nat := none
  userInfo : Option (String × String) := none
  error : Option String := none
deriving Repr, DecidableEq

/-- The `login` handler.  `username`/`password` are `data.get(...)` of the
JSON body.  On success the token is stored on the user record with expiry
`now + 3600` (one hour). -/
def login (st : ServerState) (username password : Option String) (now : Nat) :
    LoginResponse × ServerState :=
  if pyFalsy username || pyFalsy password then
    ({ status := 400, error := some "Username and password required" }, st)
  else
    let us := username.getD ""
    let ps := password.getD ""
    match st.users.find? (fun u => u.username == us) with
    | none => ({ status := 401, error := some "Invalid credentials" }, st)
    | some user =>
      if user.password ≠ ps then
        ({ status := 401, error := some "Invalid credentials" }, st)
      else
        let tok := generate_jwt_token us now
        let expires := now + 3600
        let users2 := updateUser st.users us
          (fun u => { u with token := some tok, token_expires := some expires })
        ({ status := 200, token := some tok, expires := some expires,
           userInfo := some (us, user.org_id) },
         { st with users := users2 })

/-- Python slice `l[:n]` for an `int` bound: the first `n` entries when
`n ≥ 0`, everything but the last `-n` entries when `n < 0`. -/
def pySlice (l : List α) (n : Int) : List α :=
  if 0 ≤ n then l.take n.toNat else l.take (l.length - (-n).toNat)

/-- Core of `get_missions` (after `require_auth` passed): optional store
filter — skipped when the parameter is absent *or empty* (`if store_id:`) —
then `missions[:limit]`.  Returns `(data, count, total)`. -/
def get_missions (st : ServerState) (store_id : Option String) (limit : Int) :
    List Mission × Nat × Nat :=
  let missions := st.missions
  let missions :=
    if ¬ pyFalsy store_id then
      missions.filter (fun m => m.store_id == store_id.getD "")
    else missions
  let missions := pySlice missions limit
  (missions, missions.length, st.missions.length)

/-- `GET /public/api/missions` with its decorator.  `limitParam` is the parsed
`limit` query parameter; absent means the default `10`. -/
def GET_missions (st : ServerState) (authHeader : Option String)
    (store_id : Option String) (limitParam : Option Int) (now : Nat) :
    Nat × Except String (List Mission × Nat × Nat) :=
  match require_auth st authHeader now with
  | some e => (401, Except.error e)
  | none => (200, Except.ok (get_missions st store_id (limitParam.getD 10)))

/-- JSON body of `POST /missions`; `none` = key absent.  The Python key
`type` is spelled `ctype`. -/
structure CreateBody where
  title : Option String
  ctype : Option String
  store_id : Option String
  due_date : Option String
  custom_fields : Option (List (String × String))
  priority : Option String
deriving Repr, DecidableEq

/-- Core of `create_mission` (after `require_auth` passed): the
`required_fields` loop over `["title", "type", "store_id"]` returns 400 on the
first key missing from the body; otherwise the new mission is appended and
returned with 201. -/
def create_mission (st : ServerState) (body : CreateBody) (now : Nat)
    (newId : String) : (Nat × Except String Mission) × ServerState :=
  match body.title with
  | none => ((400, Except.error "Missing required field: title"), st)
  | some title =>
    match body.ctype with
    | none => ((400, Except.error "Missing required field: type"), st)
    | some ty =>
      match body.store_id with
      | none => ((400, Except.error "Missing required field: store_id"), st)
      | some sid =>
        let mission : Mission :=
          { mission_id := newId, title := title, ctype := ty, store_id := sid,
            status := "open", created_at := now, due_date := body.due_date,
            custom_fields := body.custom_fields.getD [],
            priority := body.priority.getD "medium",
            created_by := "viam_mission_module",
            validated_at := none, validation_data := none }
        ((201, Except.ok mission),
         { st with missions := st.missions ++ [mission] })

/-- `POST /public/api/missions` with its decorator. -/
def POST_missions (st : ServerState) (authHeader : Option String)
    (body : CreateBody) (now : Nat) (newId : String) :
    (Nat × Except String Mission) × ServerState :=
  match require_auth st authHeader now with
  | some e => ((401, Except.error e), st)
  | none => create_mission st body now newId

/-- Core of `validate_mission` (after `require_auth` passed): first-match
search by `mission_id`, 404 when absent, otherwise in-place update of status /
`validated_at` / `validation_data` and 200 with the updated mission. -/
def validate_mission (st : ServerState) (mission_id : String)
    (body : ValidateBody) (now : Nat) :
    (Nat × Except String Mission) × ServerState :=
  let f : Mission → Mission := fun m =>
    { m with
      status := if body.compliant.getD true then "completed" else "non_compliant",
      validated_at := some now, validation_data := some body }
  match st.missions.find? (fun m => m.mission_id == mission_id) with
  | none => ((404, Except.error "Mission not found"), st)
  | some m =>
    ((200, Except.ok (f m)),
     { st with missions := updateFirst (fun x => x.mission_id == mission_id) f st.missions })

/-- `POST /public/api/missions/<mission_id>/validate` with its decorator. -/
def POST_validate (st : ServerState) (authHeader : Option String)
    (mission_id : String) (body : ValidateBody) (now : Nat) :
    (Nat × Except String Mission) × ServerState :=
  match require_auth st authHeader now with
  | some e => ((401, Except.error e), st)
  | none => validate_mission st mission_id body now

/-- `GET /public/api/tenants` with its decorator: the constant single-tenant
list `(id, name, stores count)`. -/
def GET_tenants (st : ServerState) (authHeader : Option String) (now : Nat) :
    Nat × Except String (List (String × String × Nat)) :=
  match require_auth st authHeader now with
  | some e => (401, Except.error e)
  | none => (200, Except.ok [("test_tenant", "Test Organization", st.stores.length)])

/-- `GET /public/api/stores` with its decorator: `(data, count)`. -/
def GET_stores (st : ServerState) (authHeader : Option String) (now : Nat) :
    Nat × Except String (List Store × Nat) :=
  match require_auth st authHeader now with
  | some e => (401, Except.error e)
  | none => (200, Except.ok (st.stores, st.stores.length))

/-- `GET /health` (no auth): `(status-word, timestamp, missions_count,
stores_count)`. -/
def health_check (st : ServerState) (now : Nat) :
    Nat × (String × Nat × Nat × Nat) :=
  (200, ("healthy", now, st.missions.length, st.stores.length))

/-- `POST /debug/reset` (no auth): clears the mission list and every user's
token and expiry. -/
def reset_data (st : ServerState) : (Nat × String) × ServerState :=
  ((200, "Mock data reset"),
   { st with missions := [],
             users := st.users.map
               (fun u => { u with token := none, token_expires := none }) })

end MockYoobic

namespace MockYoobic

/-! Concrete states used by witnesses and counterexamples: log the test user
in at time 100, then create missions. -/

/-- State after a successful login of the configured test user at time 100. -/
def st1 : ServerState :=
  (login initialState (some "test_user") (some "test_password") 100).2

/-- The matching bearer header for that login. -/
def hdr1 : Option String :=
  some ("Bearer " ++ generate_jwt_token "test_user" 100)

/-- A complete creation body targeting `store_001`. -/
def bodyA : CreateBody :=
  { title := some "A", ctype := some "ta", store_id := some "store_001",
    due_date := none, custom_fields := none, priority := none }

/-- A creation body whose `store_id` is present but empty. -/
def bodyB : CreateBody :=
  { title := some "B", ctype := some "tb", store_id := some "",
    due_date := none, custom_fields := none, priority := none }

/-- A creation body missing the required `title` key. -/
def bodyNoTitle : CreateBody :=
  { title := none, ctype := some "t", store_id := some "s",
    due_date := none, custom_fields := none, priority := none }

/-- State holding one mission (created from `bodyA`). -/
def stMission : ServerState := (POST_missions st1 hdr1 bodyA 200 "m1").2

/-- State holding two missions: `bodyA`'s and then `bodyB`'s. -/
def stTwoMissions : ServerState := (POST_missions stMission hdr1 bodyB 300 "m2").2

/-- The contribution of the record of user `uname` to `is_token_valid`:
whether `tok` is accepted *for that user*.  `is_token_valid` is the
disjunction of this over all users. -/
def userTokenValid (st : ServerState) (uname tok : String) (now : Nat) : Bool :=
  !(tok == "") &&
    (match st.users.find? (fun u => u.username == uname) with
     | some u => u.token == some tok && expiryOk u.token_expires now
     | none => false)

/-! Helper lemmas about the authentication gate. -/

theorem expiryOk_true_iff (o : Option Nat) (now : Nat) :
    expiryOk o now = true ↔ ∃ e, o = some e ∧ now < e := by
  cases o <;> simp [expiryOk]

theorem is_token_valid_true_iff (st : ServerState) (tok : String) (now : Nat) :
    is_token_valid st tok now = true ↔
      tok ≠ "" ∧ ∃ u ∈ st.users, u.token = some tok ∧
        ∃ e, u.token_expires = some e ∧ now < e := by
  unfold is_token_valid
  by_cases htok : tok = ""
  · simp [htok]
  · have hbeq : (tok == "") = false := by simp [htok]
    simp [hbeq, htok, List.any_eq_true, expiryOk_true_iff]

theorem require_auth_none_iff (st : ServerState) (h : Option String) (now : Nat) :
    require_auth st h now = none ↔
      ∃ hs, h = some hs ∧ startsWithBearer hs = true ∧
        is_token_valid st (extractToken hs) now = true := by
  cases h with
  | none => simp [require_auth]
  | some hs =>
    cases hb : startsWithBearer hs <;>
      cases hv : is_token_valid st (extractToken hs) now <;>
        simp [require_auth, hb, hv]

/-- Claim C2: every authentication-protected endpoint (GET /missions,
POST /missions, POST /missions/{id}/validate, GET /tenants, GET /stores)
rejects with 401 exactly when the bearer token is missing, matches no user's
stored token, or is past that user's stored expiry; in particular a token
whose every holder's expiry has passed is never served. -/
theorem claim2_auth_guard (st : ServerState) (h : Option String) (now : Nat) :
    (require_auth st h now = none ↔
      ∃ hs, h = some hs ∧ startsWithBearer hs = true ∧
        is_token_valid st (extractToken hs) now = true) ∧
    (∀ tok, is_token_valid st tok now = true ↔
      tok ≠ "" ∧ ∃ u ∈ st.users, u.token = some tok ∧
        ∃ e, u.token_expires = some e ∧ now < e) ∧
    (∀ r, require_auth st h now = some r →
      (∀ sid lim, GET_missions st h sid lim now = (401, Except.error r)) ∧
      (∀ body newId, POST_missions st h body now newId = ((401, Except.error r), st)) ∧
      (∀ mid body, POST_validate st h mid body now = ((401, Except.error r), st)) ∧
      GET_tenants st h now = (401, Except.error r) ∧
      GET_stores st h now = (401, Except.error r)) ∧
    (∀ hs, h = some hs →
      (∀ u ∈ st.users, ∀ e, u.token = some (extractToken hs) →
        u.token_expires = some e → e ≤ now) →
      require_auth st h now ≠ none) := by
  refine ⟨require_auth_none_iff st h now,
    fun tok => is_token_valid_true_iff st tok now, ?_, ?_⟩
  · intro r hr
    exact ⟨fun sid lim => by simp [GET_missions, hr],
      fun body newId => by simp [POST_missions, hr],
      fun mid body => by simp [POST_validate, hr],
      by simp [GET_tenants, hr], by simp [GET_stores, hr]⟩
  · rintro hs rfl hexp hnone
    rw [require_auth_none_iff] at hnone
    obtain ⟨hs', heq, _, hv⟩ := hnone
    obtain rfl : hs = hs' := by injection heq
    rw [is_token_valid_true_iff] at hv
    obtain ⟨-, u, hu, hut, e, hue, hlt⟩ := hv
    exact absurd hlt (not_lt.mpr (hexp u hu e hut hue))

/-- Witness for C2: with no Authorization header the missions listing is
rejected with 401. -/
theorem claim2_auth_witness :
    GET_missions initialState none none none 0 =
      (401, Except.error "Authentication required") :=
  ((claim2_auth_guard initialState none 0).2.2.1 "Authentication required"
    (by decide)).1 none none

/-- Claim C1: authenticated POST /missions rejects a body missing any of
title/type/store_id with 400 naming the first missing field and stores
nothing; otherwise it appends and returns (201) a mission with server-assigned
id, status "open", priority defaulting to "medium", custom_fields defaulting
to the empty mapping, and created_by "viam_mission_module". -/
theorem claim1_create_contract (st : ServerState) (h : Option String)
    (body : CreateBody) (now : Nat) (newId : String)
    (hauth : require_auth st h now = none) :
    (body.title = none →
      POST_missions st h body now newId =
        ((400, Except.error "Missing required field: title"), st)) ∧
    (body.title ≠ none → body.ctype = none →
      POST_missions st h body now newId =
        ((400, Except.error "Missing required field: type"), st)) ∧
    (body.title ≠ none → body.ctype ≠ none → body.store_id = none →
      POST_missions st h body now newId =
        ((400, Except.error "Missing required field: store_id"), st)) ∧
    (∀ ti ty sid, body.title = some ti → body.ctype = some ty →
      body.store_id = some sid →
      ∃ m, POST_missions st h body now newId =
          ((201, Except.ok m), { st with missions := st.missions ++ [m] }) ∧
        m.mission_id = newId ∧ m.status = "open" ∧
        m.created_by = "viam_mission_module" ∧
        m.title = ti ∧ m.ctype = ty ∧ m.store_id = sid ∧
        m.priority = body.priority.getD "medium" ∧
        (body.priority = none → m.priority = "medium") ∧
        m.custom_fields = body.custom_fields.getD [] ∧
        (body.custom_fields = none → m.custom_fields = [])) := by
  obtain ⟨t, ty0, sid0, dd, cf, pr⟩ := body
  simp only [POST_missions, hauth]
  refine ⟨?_, ?_, ?_, ?_⟩
  · rintro rfl; simp [create_mission]
  · intro ht hty
    cases t with
    | none => exact absurd rfl ht
    | some ti => subst hty; simp [create_mission]
  · intro ht hty hsid
    cases t with
    | none => exact absurd rfl ht
    | some ti =>
      cases ty0 with
      | none => exact absurd rfl hty
      | some ty => subst hsid; simp [create_mission]
  · rintro ti ty sid h1 h2 h3
    obtain rfl : t = some ti := h1
    obtain rfl : ty0 = some ty := h2
    obtain rfl : sid0 = some sid := h3
    refine ⟨_, rfl, rfl, rfl, rfl, rfl, rfl, rfl, rfl, ?_, rfl, ?_⟩
    · rintro rfl; rfl
    · rintro rfl; rfl

/-- Witness for C1: a logged-in session, a body missing `title` is refused
with the named field and the state kept. -/
theorem claim1_create_witness :
    require_auth st1 hdr1 200 = none ∧
    POST_missions st1 hdr1 bodyNoTitle 200 "m1" =
      ((400, Except.error "Missing required field: title"), st1) :=
  ⟨by decide,
   (claim1_create_contract st1 hdr1 bodyNoTitle 200 "m1" (by decide)).1 rfl⟩

/-- Claim C3, counterexample: the supplied credentials `username=""`,
`password="x"` match no configured credential set, yet the response is 400,
not the 401 the claim requires (nor 200). -/
theorem claim3_login_counterexample :
    (∀ u ∈ initialState.users, ¬(u.username = "" ∧ u.password = "x")) ∧
    (login initialState (some "") (some "x") 0).1.status = 400 ∧
    (login initialState (some "") (some "x") 0).1.status ≠ 200 ∧
    (login initialState (some "") (some "x") 0).1.status ≠ 401 := by
  decide

/-- Claim C3 (amended): when both username and password are supplied and
non-empty, POST /auth/login responds 200 with token, expires and user on a
credential match and 401 with an error body on a mismatch or unknown user;
when either credential is missing or empty it responds 400 with an error
body. -/
theorem claim3_login_contract (st : ServerState)
    (username password : Option String) (now : Nat) :
    (pyFalsy username = true ∨ pyFalsy password = true →
      (login st username password now).1.status = 400 ∧
      (login st username password now).1.error = some "Username and password required" ∧
      (login st username password now).2 = st) ∧
    (∀ us ps, username = some us → password = some ps → us ≠ "" → ps ≠ "" →
      (st.users.find? (fun u => u.username == us) = none →
        (login st username password now).1.status = 401 ∧
        (login st username password now).1.error = some "Invalid credentials" ∧
        (login st username password now).2 = st) ∧
      (∀ usr, st.users.find? (fun u => u.username == us) = some usr →
        usr.password ≠ ps →
        (login st username password now).1.status = 401 ∧
        (login st username password now).1.error = some "Invalid credentials" ∧
        (login st username password now).2 = st) ∧
      (∀ usr, st.users.find? (fun u => u.username == us) = some usr →
        usr.password = ps →
        (login st username password now).1 =
          { status := 200, token := some (generate_jwt_token us now),
            expires := some (now + 3600), userInfo := some (us, usr.org_id),
            error := none } ∧
        (login st username password now).2 =
          { st with users := updateUser st.users us (fun u =>
              { u with token := some (generate_jwt_token us now),
                       token_expires := some (now + 3600) }) })) := by
  constructor
  · intro hf
    have hcond : (pyFalsy username || pyFalsy password) = true := by
      rcases hf with h | h <;> simp [h]
    simp [login, hcond]
  · rintro us ps rfl rfl hus hps
    have hfu : pyFalsy (some us) = false := by simp [pyFalsy, hus]
    have hfp : pyFalsy (some ps) = false := by simp [pyFalsy, hps]
    refine ⟨?_, ?_, ?_⟩
    · intro hfind; simp [login, hfu, hfp, hfind]
    · intro usr hfind hpw; simp [login, hfu, hfp, hfind, hpw]
    · intro usr hfind hpw; simp [login, hfu, hfp, hfind, hpw]

/-- Witness for C3 (amended): a body with both credentials missing gets 400
and changes nothing. -/
theorem claim3_login_witness :
    (login initialState none none 0).1.status = 400 ∧
    (login initialState none none 0).2 = initialState := by
  have h := (claim3_login_contract initialState none none 0).1 (Or.inl rfl)
  exact ⟨h.1, h.2.2⟩

/-- Claim C9: a POST /auth/login that does not return 200 leaves the whole
state — in particular every user's stored token and expiry — unchanged, so
token validity is unaffected. -/
theorem claim9_failed_login_frame (st : ServerState) (u p : Option String)
    (now : Nat) (hfail : (login st u p now).1.status ≠ 200) :
    (login st u p now).2 = st ∧
    ∀ tok t, is_token_valid ((login st u p now).2) tok t =
      is_token_valid st tok t := by
  have hst : (login st u p now).2 = st := by
    by_cases hf : (pyFalsy u || pyFalsy p) = true
    · simp [login, hf]
    · cases hfind : st.users.find? (fun x => x.username == u.getD "") with
      | none => simp [login, hf, hfind]
      | some usr =>
        by_cases hpw : usr.password = p.getD ""
        · exact absurd (by simp [login, hf, hfind, hpw]) hfail
        · simp [login, hf, hfind, hpw]
  exact ⟨hst, fun tok t => by rw [hst]⟩

/-- Witness for C9: a wrong password is rejected and the state is kept. -/
theorem claim9_failed_login_witness :
    (login initialState (some "test_user") (some "wrong") 5).2 = initialState :=
  (claim9_failed_login_frame initialState (some "test_user") (some "wrong") 5
    (by decide)).1

/-- Claim C4, counterexample: with one stored mission (store `store_001`) and
a supplied-but-empty `store_id=""` filter, the full mission list is returned,
although filtering by `""` would return nothing — the code skips a falsy
filter. -/
theorem claim4_list_counterexample :
    require_auth stMission hdr1 300 = none ∧
    (GET_missions stMission hdr1 (some "") none 300).1 = 200 ∧
    (GET_missions stMission hdr1 (some "") none 300).2 =
      Except.ok (stMission.missions, 1, 1) ∧
    stMission.missions.all (fun m => m.store_id == "") = false ∧
    (stMission.missions.filter (fun m => m.store_id == "")).take 10 = [] := by
  refine ⟨by decide, by decide, rfl, by decide, by decide⟩

/-- Claim C4 (amended): authenticated GET /missions returns 200 with
`count = |data|` and `total` the number of all stored missions; `data` is the
stored list, filtered by `store_id` only when the supplied filter is
non-empty (an absent or empty `store_id` applies no filter), then truncated
by Python slicing with `limit` (default 10): the first `limit` entries when
`limit ≥ 0`, all but the last `-limit` entries when negative. -/
theorem claim4_list_contract (st : ServerState) (h : Option String)
    (store_id : Option String) (limitParam : Option Int) (now : Nat)
    (hauth : require_auth st h now = none) :
    ∃ d, GET_missions st h store_id limitParam now =
        (200, Except.ok (d, d.length, st.missions.length)) ∧
      (pyFalsy store_id = false → 0 ≤ limitParam.getD 10 →
        d = (st.missions.filter (fun m => m.store_id == store_id.getD "")).take
              (limitParam.getD 10).toNat) ∧
      (pyFalsy store_id = true → 0 ≤ limitParam.getD 10 →
        d = st.missions.take (limitParam.getD 10).toNat) ∧
      (pyFalsy store_id = false → limitParam.getD 10 < 0 →
        d = (st.missions.filter (fun m => m.store_id == store_id.getD "")).take
              ((st.missions.filter (fun m => m.store_id == store_id.getD "")).length -
                (-(limitParam.getD 10)).toNat)) ∧
      (pyFalsy store_id = true → limitParam.getD 10 < 0 →
        d = st.missions.take (st.missions.length - (-(limitParam.getD 10)).toNat)) := by
  refine ⟨(get_missions st store_id (limitParam.getD 10)).1, ?_, ?_, ?_, ?_, ?_⟩
  · simp only [GET_missions, hauth]
    rfl
  · intro hsf hnn; simp [get_missions, hsf, pySlice, hnn]
  · intro hsf hnn; simp [get_missions, hsf, pySlice, hnn]
  · intro hsf hneg
    have hnle : ¬ (0:Int) ≤ limitParam.getD 10 := not_le.mpr hneg
    simp [get_missions, hsf, pySlice, hnle]
  · intro hsf hneg
    have hnle : ¬ (0:Int) ≤ limitParam.getD 10 := not_le.mpr hneg
    simp [get_missions, hsf, pySlice, hnle]

/-- Witness for C4 (amended): listing with a non-empty filter and limit 5
returns the filtered, truncated data with matching count and total. -/
theorem claim4_list_witness :
    GET_missions stMission hdr1 (some "store_001") (some 5) 300 =
      (200, Except.ok
        ((stMission.missions.filter (fun m => m.store_id == "store_001")).take 5,
         ((stMission.missions.filter (fun m => m.store_id == "store_001")).take 5).length,
         stMission.missions.length)) := by
  obtain ⟨d, hmain, hff, -, -, -⟩ :=
    claim4_list_contract stMission hdr1 (some "store_001") (some 5) 300 (by decide)
  rw [hmain, hff (by decide) (by decide)]
  rfl

/-! Helper lemmas about `updateFirst`. -/

theorem updateFirst_congr_found (p : α → Bool) (f : α → α) (l : List α) (x : α)
    (hx : l.find? p = some x) :
    updateFirst p f l = updateFirst p (fun _ => f x) l := by
  induction l with
  | nil => simp at hx
  | cons a as ih =>
    by_cases hpa : p a = true
    · rw [List.find?_cons_of_pos _ hpa] at hx
      injection hx with hx; subst hx
      simp [updateFirst, hpa]
    · rw [List.find?_cons_of_neg _ (by simp [hpa])] at hx
      simp [updateFirst, hpa, ih hx]

theorem updateFirst_length (p : α → Bool) (f : α → α) (l : List α) :
    (updateFirst p f l).length = l.length := by
  induction l with
  | nil => rfl
  | cons a as ih => by_cases hpa : p a = true <;> simp [updateFirst, hpa, ih]

theorem updateFirst_getElem?_of_not (p : α → Bool) (f : α → α) (l : List α)
    (i : Nat) (hnp : ∀ x, l[i]? = some x → p x = false) :
    (updateFirst p f l)[i]? = l[i]? := by
  induction l generalizing i with
  | nil => simp [updateFirst]
  | cons a as ih =>
    by_cases hpa : p a = true
    · cases i with
      | zero => exact absurd (hnp a (by simp)) (by simp [hpa])
      | succ j => simp [updateFirst, hpa]
    · cases i with
      | zero => simp [updateFirst, hpa]
      | succ j =>
        simp only [updateFirst, hpa, if_neg, Bool.not_eq_true, ite_false,
          List.getElem?_cons_succ]
        exact ih j (fun x hx => hnp x (by simpa using hx))

/-- Claim C5: authenticated POST /missions/{id}/validate responds 404 and
changes nothing when no stored mission has the id; otherwise it responds 200
with the stored mission updated in place: status "completed" when `compliant`
is true or absent, "non_compliant" when false, and `validated_at` stamped. -/
theorem claim5_validate_contract (st : ServerState) (h : Option String)
    (mid : String) (body : ValidateBody) (now : Nat)
    (hauth : require_auth st h now = none) :
    (st.missions.find? (fun m => m.mission_id == mid) = none →
      POST_validate st h mid body now =
        ((404, Except.error "Mission not found"), st)) ∧
    (∀ m, st.missions.find? (fun m => m.mission_id == mid) = some m →
      ∃ m', POST_validate st h mid body now =
          ((200, Except.ok m'),
           { st with missions :=
              updateFirst (fun x => x.mission_id == mid) (fun _ => m') st.missions }) ∧
        m'.validated_at = some now ∧
        (body.compliant = some false → m'.status = "non_compliant") ∧
        (body.compliant ≠ some false → m'.status = "completed") ∧
        m'.mission_id = m.mission_id ∧ m'.title = m.title ∧ m'.ctype = m.ctype ∧
        m'.store_id = m.store_id ∧ m'.validation_data = some body) := by
  simp only [POST_validate, hauth]
  constructor
  · intro hfind; simp [validate_mission, hfind]
  · intro m hfind
    refine ⟨{ m with
        status := if body.compliant.getD true then "completed" else "non_compliant",
        validated_at := some now, validation_data := some body },
      ?_, rfl, ?_, ?_, rfl, rfl, rfl, rfl, rfl⟩
    · have hcongr := updateFirst_congr_found (fun x => x.mission_id == mid)
        (fun x => { x with
          status := if body.compliant.getD true then "completed" else "non_compliant",
          validated_at := some now, validation_data := some body })
        st.missions m hfind
      simp [validate_mission, hfind, hcongr]
    · intro hc; simp [hc]
    · intro hc
      cases hcb : body.compliant with
      | none => simp [hcb]
      | some b =>
        cases b with
        | false => exact absurd hcb hc
        | true => simp [hcb]

/-- Witness for C5: validating the stored mission `m1` with `compliant=false`
returns 200 and a mission marked non_compliant and stamped. -/
theorem claim5_validate_witness :
    ∃ m', (POST_validate stMission hdr1 "m1" { compliant := some false } 400).1 =
      (200, Except.ok m') ∧ m'.status = "non_compliant" ∧
      m'.validated_at = some 400 := by
  obtain ⟨m', hmain, hstamp, hnc, -, -, -, -, -, -⟩ :=
    (claim5_validate_contract stMission hdr1 "m1" { compliant := some false } 400
      (by decide)).2 (stMission.missions.get ⟨0, by decide⟩) (by decide)
  exact ⟨m', by rw [hmain], hnc rfl, hstamp⟩

/-- Claim C7: a successful validate call touches only the addressed mission:
users and stores are untouched, the mission count is unchanged, and every
stored mission whose id differs from the path parameter is unchanged at its
position. -/
theorem claim7_validate_frame (st : ServerState) (h : Option String)
    (mid : String) (body : ValidateBody) (now : Nat)
    (hauth : require_auth st h now = none)
    (hok : (POST_validate st h mid body now).1.1 = 200) :
    (POST_validate st h mid body now).2.users = st.users ∧
    (POST_validate st h mid body now).2.stores = st.stores ∧
    (POST_validate st h mid body now).2.missions.length = st.missions.length ∧
    ∀ i : Nat, (st.missions[i]?.all (fun m => m.mission_id != mid)) = true →
      (POST_validate st h mid body now).2.missions[i]? = st.missions[i]? := by
  simp only [POST_validate, hauth] at hok ⊢
  cases hfind : st.missions.find? (fun m => m.mission_id == mid) with
  | none => simp [validate_mission, hfind] at hok
  | some m =>
    refine ⟨by simp [validate_mission, hfind], by simp [validate_mission, hfind],
      ?_, ?_⟩
    · simp only [validate_mission, hfind]
      exact updateFirst_length _ _ _
    · intro i hi
      simp only [validate_mission, hfind]
      refine updateFirst_getElem?_of_not _ _ _ i (fun x hx => ?_)
      rw [hx] at hi
      simpa using hi

/-- Witness for C7: validating `m2` in the two-mission state leaves the
mission at position 0 (id `m1`) unchanged. -/
theorem claim7_frame_witness :
    (POST_validate stTwoMissions hdr1 "m2" { compliant := some false } 400).2.missions[0]? =
      stTwoMissions.missions[0]? :=
  (claim7_validate_frame stTwoMissions hdr1 "m2" { compliant := some false } 400
    (by decide) (by decide)).2.2.2 0 (by decide)

theorem pySlice_of_length_le (l : List α) (n : Int)
    (hle : (l.length : Int) ≤ n) : pySlice l n = l := by
  have h0 : (0:Int) ≤ n := le_trans (Int.natCast_nonneg _) hle
  have hn : l.length ≤ n.toNat := by omega
  simp [pySlice, h0, List.take_of_length_le hn]

/-- Claim C6, counterexample: a mission created with the (present but empty)
store_id `""` satisfies the claim's hypotheses with `s = ""` and `limit = 1`
(one stored mission matches `""`), yet the fetch returns only the first
stored mission, whose title/type do not match the created one — the empty
filter is dropped, so `limit` cuts the unfiltered list. -/
theorem claim6_roundtrip_counterexample :
    (POST_missions stMission hdr1 bodyB 300 "m2").1.1 = 201 ∧
    bodyB.store_id = some "" ∧
    ((stTwoMissions.missions.filter (fun m => m.store_id == "")).length : Int) ≤ 1 ∧
    require_auth stTwoMissions hdr1 400 = none ∧
    (GET_missions stTwoMissions hdr1 (some "") (some 1) 400).2 =
      Except.ok (stTwoMissions.missions.take 1, 1, 2) ∧
    (stTwoMissions.missions.take 1).all
      (fun m => !(m.title == "B" && m.ctype == "tb" && m.store_id == "")) = true := by
  refine ⟨by decide, rfl, by decide, by decide, rfl, by decide⟩

/-- Claim C6 (amended): for every mission successfully created via
POST /missions with a *non-empty* store_id `s`, an authenticated GET /missions
with `store_id = s` and a limit at least the number of stored missions
matching `s` returns a list containing a mission with the submitted title,
type and store_id. -/
theorem claim6_roundtrip (st : ServerState) (h h2 : Option String)
    (body : CreateBody) (now now2 : Nat) (newId : String)
    (ti ty s : String) (limitParam : Option Int)
    (hauth : require_auth st h now = none)
    (hti : body.title = some ti) (hty : body.ctype = some ty)
    (hsid : body.store_id = some s) (hs : s ≠ "")
    (hauth2 : require_auth (POST_missions st h body now newId).2 h2 now2 = none)
    (hlim : (((POST_missions st h body now newId).2.missions.filter
        (fun m => m.store_id == s)).length : Int) ≤ limitParam.getD 10) :
    ∃ d, GET_missions (POST_missions st h body now newId).2 h2 (some s) limitParam now2 =
        (200, Except.ok (d, d.length,
          (POST_missions st h body now newId).2.missions.length)) ∧
      ∃ m ∈ d, m.title = ti ∧ m.ctype = ty ∧ m.store_id = s := by
  have hpost : (POST_missions st h body now newId).2 =
      { st with missions := st.missions ++
        [{ mission_id := newId, title := ti, ctype := ty, store_id := s,
           status := "open", created_at := now, due_date := body.due_date,
           custom_fields := body.custom_fields.getD [],
           priority := body.priority.getD "medium",
           created_by := "viam_mission_module",
           validated_at := none, validation_data := none }] } := by
    simp [POST_missions, hauth, create_mission, hti, hty, hsid]
  have hsf : pyFalsy (some s) = false := by simp [pyFalsy, hs]
  have hfil : (POST_missions st h body now newId).2.missions.filter
      (fun m => m.store_id == s) =
      st.missions.filter (fun m => m.store_id == s) ++
        [{ mission_id := newId, title := ti, ctype := ty, store_id := s,
           status := "open", created_at := now, due_date := body.due_date,
           custom_fields := body.custom_fields.getD [],
           priority := body.priority.getD "medium",
           created_by := "viam_mission_module",
           validated_at := none, validation_data := none }] := by
    rw [hpost]
    simp [List.filter_append]
  have hslice : pySlice ((POST_missions st h body now newId).2.missions.filter
      (fun m => m.store_id == s)) (limitParam.getD 10) =
      (POST_missions st h body now newId).2.missions.filter
        (fun m => m.store_id == s) :=
    pySlice_of_length_le _ _ hlim
  refine ⟨(POST_missions st h body now newId).2.missions.filter
      (fun m => m.store_id == s), ?_, ?_⟩
  · simp only [GET_missions, hauth2]
    unfold get_missions
    simp only [hsf, Bool.false_eq_true, not_false_eq_true, if_true, Option.getD_some,
      hslice]
  · rw [hfil]
    exact ⟨_, List.mem_append_right _ (List.mem_singleton.mpr rfl), rfl, rfl, rfl⟩

/-- Witness for C6 (amended): the mission created from `bodyA` is found again
when listing `store_001` with limit 5. -/
theorem claim6_roundtrip_witness :
    ∃ d, GET_missions (POST_missions st1 hdr1 bodyA 200 "m1").2 hdr1
        (some "store_001") (some 5) 300 =
      (200, Except.ok (d, d.length,
        (POST_missions st1 hdr1 bodyA 200 "m1").2.missions.length)) ∧
      ∃ m ∈ d, m.title = "A" ∧ m.ctype = "ta" ∧ m.store_id = "store_001" :=
  claim6_roundtrip st1 hdr1 hdr1 bodyA 200 300 "m1" "A" "ta" "store_001" (some 5)
    (by decide) rfl rfl rfl (by decide) (by decide) (by decide)

/-! Helper lemmas for the session claims. -/

theorem find?_updateFirst_of_found (p : α → Bool) (f : α → α) (l : List α)
    (x : α) (hx : l.find? p = some x) (hfx : p (f x) = true) :
    (updateFirst p f l).find? p = some (f x) := by
  induction l with
  | nil => simp at hx
  | cons a as ih =>
    cases hpa : p a with
    | true =>
      rw [List.find?_cons_of_pos _ hpa] at hx
      injection hx with hx; subst hx
      simp [updateFirst, hpa, List.find?_cons_of_pos _ hfx]
    | false =>
      rw [List.find?_cons_of_neg _ (by simp [hpa])] at hx
      have hstep : updateFirst p f (a :: as) = a :: updateFirst p f as := by
        simp [updateFirst, hpa]
      rw [hstep, List.find?_cons_of_neg _ (by simp [hpa])]
      exact ih hx

theorem userTokenValid_unique (st : ServerState) (uname tok1 tok2 : String)
    (t : Nat) (h1 : userTokenValid st uname tok1 t = true)
    (h2 : userTokenValid st uname tok2 t = true) : tok1 = tok2 := by
  unfold userTokenValid at h1 h2
  cases hfind : st.users.find? (fun u => u.username == uname) with
  | none => rw [hfind] at h1; simp at h1
  | some u0 =>
    rw [hfind] at h1 h2
    simp only [Bool.and_eq_true, beq_iff_eq] at h1 h2
    obtain ⟨-, ht1, -⟩ := h1
    obtain ⟨-, ht2, -⟩ := h2
    rw [ht1] at ht2
    exact Option.some.inj ht2

theorem mem_updateUser_of_nodup (us : String) (f : User → User) :
    ∀ users : List User, (users.map User.username).Nodup →
    ∀ usr, users.find? (fun x => x.username == us) = some usr →
    ∀ v ∈ updateUser users us f, v = f usr ∨ (v ∈ users ∧ v.username ≠ us) := by
  intro users
  induction users with
  | nil => intro _ usr hfind; simp at hfind
  | cons a as ih =>
    intro hnodup usr hfind
    rw [List.map_cons, List.nodup_cons] at hnodup
    obtain ⟨hna, hnas⟩ := hnodup
    cases hpa : (a.username == us) with
    | true =>
      rw [show (a :: as).find? (fun x => x.username == us) = some a by
        simp [List.find?, hpa]] at hfind
      obtain rfl : a = usr := by injection hfind
      intro v hv
      rw [show updateUser (a :: as) us f = f a :: as by
        simp [updateUser, updateFirst, hpa], List.mem_cons] at hv
      rcases hv with hva | hv
      · exact Or.inl hva
      · right
        refine ⟨List.mem_cons_of_mem _ hv, ?_⟩
        intro hvus
        have haus : a.username = us := by simpa using hpa
        have heq : a.username = v.username := haus.trans hvus.symm
        exact hna (heq ▸ List.mem_map_of_mem _ hv)
    | false =>
      rw [show (a :: as).find? (fun x => x.username == us) =
          as.find? (fun x => x.username == us) by
        simp [List.find?, hpa]] at hfind
      intro v hv
      rw [show updateUser (a :: as) us f = a :: updateUser as us f by
        simp [updateUser, updateFirst, hpa], List.mem_cons] at hv
      rcases hv with hva | hv
      · right
        refine ⟨?_, ?_⟩
        · rw [hva]; exact List.mem_cons_self _ _
        · rw [hva]; intro hvus; simp [hvus] at hpa
      · rcases ih hnas usr hfind v hv with h1 | ⟨h2, h3⟩
        · exact Or.inl h1
        · exact Or.inr ⟨List.mem_cons_of_mem _ h2, h3⟩

theorem userTokenValid_state (st : ServerState) (uname tok : String) (t : Nat)
    (usr : User)
    (hfind : st.users.find? (fun x => x.username == uname) = some usr) :
    userTokenValid st uname tok t =
      (!(tok == "") && (usr.token == some tok && expiryOk usr.token_expires t)) := by
  unfold userTokenValid
  rw [hfind]

theorem login_success_elim (st : ServerState) (u p : Option String) (now : Nat)
    (hsucc : (login st u p now).1.status = 200) :
    ∃ us ps usr, u = some us ∧ p = some ps ∧ us ≠ "" ∧
      st.users.find? (fun x => x.username == us) = some usr ∧
      usr.password = ps ∧
      (login st u p now).2 = { st with users := updateUser st.users us (fun x =>
        { x with token := some (generate_jwt_token us now),
                 token_expires := some (now + 3600) }) } := by
  by_cases hf : (pyFalsy u || pyFalsy p) = true
  · simp [login, hf] at hsucc
  · have hf' := hf
    rw [Bool.or_eq_true] at hf'
    push_neg at hf'
    obtain ⟨hfu, hfp⟩ := hf'
    cases u with
    | none => exact absurd rfl hfu
    | some us =>
      cases p with
      | none => exact absurd rfl hfp
      | some ps =>
        have hus : us ≠ "" := by
          intro hh; subst hh; exact hfu rfl
        cases hfind : st.users.find? (fun x => x.username == us) with
        | none => simp [login, hf, hfind] at hsucc
        | some usr =>
          by_cases hpw : usr.password = ps
          · refine ⟨us, ps, usr, rfl, rfl, hus, hfind, hpw, ?_⟩
            simp [login, hf, hfind, hpw]
          · simp [login, hf, hfind, hpw] at hsucc

/-- Claim C8: in a state with dict-unique usernames, after a successful login
at most one token is accepted per user; the newly issued token is the only
token validating for the logged-in user; any different (earlier) token no
longer validates for them, and — as long as no other user stores that exact
token — is rejected globally. -/
theorem claim8_single_session (st : ServerState) (u p : Option String)
    (now : Nat) (hnodup : (st.users.map User.username).Nodup)
    (hsucc : (login st u p now).1.status = 200) :
    ∃ us, u = some us ∧
      (∀ uname tok1 tok2 t,
        userTokenValid (login st u p now).2 uname tok1 t = true →
        userTokenValid (login st u p now).2 uname tok2 t = true → tok1 = tok2) ∧
      (∀ tok t, userTokenValid (login st u p now).2 us tok t = true →
        tok = generate_jwt_token us now) ∧
      (∀ oldTok t, oldTok ≠ generate_jwt_token us now →
        userTokenValid (login st u p now).2 us oldTok t = false) ∧
      (∀ oldTok t, oldTok ≠ generate_jwt_token us now →
        (∀ v ∈ st.users, v.username ≠ us → v.token ≠ some oldTok) →
        is_token_valid (login st u p now).2 oldTok t = false) := by
  obtain ⟨us, ps, usr, rfl, rfl, hus, hfind, hpw, hst'⟩ :=
    login_success_elim st u p now hsucc
  have hq := List.find?_some hfind
  have hfind' : ((login st (some us) (some ps) now).2).users.find?
      (fun x => x.username == us) =
      some { usr with token := some (generate_jwt_token us now),
                      token_expires := some (now + 3600) } := by
    rw [hst']
    exact find?_updateFirst_of_found _ _ st.users usr hfind hq
  have h2 : ∀ tok t,
      userTokenValid (login st (some us) (some ps) now).2 us tok t = true →
      tok = generate_jwt_token us now := by
    intro tok t hval
    rw [userTokenValid_state _ us tok t _ hfind'] at hval
    simp only [Bool.and_eq_true, beq_iff_eq] at hval
    obtain ⟨-, htok, -⟩ := hval
    injection htok with htok
    exact htok.symm
  refine ⟨us, rfl, ?_, h2, ?_, ?_⟩
  · intro uname tok1 tok2 t ha hb
    exact userTokenValid_unique _ uname tok1 tok2 t ha hb
  · intro oldTok t hne
    cases hb : userTokenValid (login st (some us) (some ps) now).2 us oldTok t with
    | false => rfl
    | true => exact absurd (h2 oldTok t hb) hne
  · intro oldTok t hne hother
    cases hb : is_token_valid (login st (some us) (some ps) now).2 oldTok t with
    | false => rfl
    | true =>
      exfalso
      rw [hst', is_token_valid_true_iff] at hb
      obtain ⟨-, v', hvmem, hvtok, -⟩ := hb
      rcases mem_updateUser_of_nodup us _ st.users hnodup usr hfind v' hvmem with
        hv | ⟨hvin, hvne⟩
      · rw [hv] at hvtok
        simp only at hvtok
        injection hvtok with hvtok
        exact hne hvtok.symm
      · exact hother v' hvin hvne hvtok

/-- Witness for C8: after the login at time 100, an unrelated token string is
not accepted for the test user. -/
theorem claim8_session_witness :
    userTokenValid st1 "test_user" "oldtoken" 150 = false := by
  obtain ⟨us, hus, -, -, h3, -⟩ := claim8_single_session initialState
    (some "test_user") (some "test_password") 100 (by decide) (by decide)
  obtain rfl : us = "test_user" := by injection hus with h; exact h.symm
  exact h3 "oldtoken" 150 (by decide)

theorem login_missions_eq (st : ServerState) (u p : Option String) (now : Nat) :
    (login st u p now).2.missions = st.missions := by
  by_cases hf : (pyFalsy u || pyFalsy p) = true
  · simp [login, hf]
  · cases hfind : st.users.find? (fun x => x.username == u.getD "") with
    | none => simp [login, hf, hfind]
    | some usr =>
      by_cases hpw : usr.password = p.getD "" <;> simp [login, hf, hfind, hpw]

/-- Claim C10: POST /debug/reset empties the mission list (so /health reports
missions_count 0 and an authenticated listing after a fresh login returns no
data) and clears every user's token and expiry, so every pre-reset token is
rejected with 401 on protected endpoints. -/
theorem claim10_reset_effects (st : ServerState) (now : Nat) :
    (reset_data st).2.missions = [] ∧
    health_check (reset_data st).2 now = (200, ("healthy", now, 0, st.stores.length)) ∧
    (∀ u ∈ (reset_data st).2.users, u.token = none ∧ u.token_expires = none) ∧
    (∀ tok t, is_token_valid (reset_data st).2 tok t = false) ∧
    (∀ h t, require_auth (reset_data st).2 h t ≠ none) ∧
    (∀ h sid lim t, (GET_missions (reset_data st).2 h sid lim t).1 = 401) ∧
    (∀ u2 p2 t2 h sid lim t3,
      require_auth ((login (reset_data st).2 u2 p2 t2).2) h t3 = none →
      GET_missions ((login (reset_data st).2 u2 p2 t2).2) h sid lim t3 =
        (200, Except.ok ([], 0, 0))) := by
  have hmiss : (reset_data st).2.missions = [] := rfl
  have husers : ∀ u ∈ (reset_data st).2.users,
      u.token = none ∧ u.token_expires = none := by
    intro u hu
    simp only [reset_data, List.mem_map] at hu
    obtain ⟨v, -, rfl⟩ := hu
    exact ⟨rfl, rfl⟩
  have hiv : ∀ tok t, is_token_valid (reset_data st).2 tok t = false := by
    intro tok t
    cases hb : is_token_valid (reset_data st).2 tok t with
    | false => rfl
    | true =>
      exfalso
      rw [is_token_valid_true_iff] at hb
      obtain ⟨-, u, hu, hut, -⟩ := hb
      rw [(husers u hu).1] at hut
      exact Option.noConfusion hut
  have hra : ∀ h t, require_auth (reset_data st).2 h t ≠ none := by
    intro h t hnone
    rw [require_auth_none_iff] at hnone
    obtain ⟨hs, -, -, hv⟩ := hnone
    rw [hiv] at hv
    exact Bool.false_ne_true hv
  refine ⟨hmiss, by simp [health_check, reset_data], husers, hiv, hra, ?_, ?_⟩
  · intro h sid lim t
    cases hcases : require_auth (reset_data st).2 h t with
    | none => exact absurd hcases (hra h t)
    | some e => simp [GET_missions, hcases]
  · intro u2 p2 t2 h sid lim t3 hauth2
    have hm2 : ((login (reset_data st).2 u2 p2 t2).2).missions = [] := by
      rw [login_missions_eq]; exact hmiss
    simp [GET_missions, hauth2, get_missions, hm2, pySlice]

/-- Witness for C10: after resetting the logged-in state, the pre-reset
bearer header is rejected with 401 on GET /missions. -/
theorem claim10_reset_witness :
    (GET_missions (reset_data st1).2 hdr1 none none 300).1 = 401 :=
  (claim10_reset_effects st1 300).2.2.2.2.2.1 hdr1 none none 300

end MockYoobic
